import Mathlib

/-!
Shallow embedding of the skatehive-transcoder video worker, verified against
its natural-language specification.

Source layout:
* `src/unnamed/part_003` (first document): the server variant with the
  ffprobe-driven remux-vs-encode decision (`execProbe`, `runFfmpeg`, the
  `/transcode` handler) and the `PINATA_GATEWAY` gateway-URL construction.
* `src/unnamed/part_003` (second document): `TranscodeLogger`
  (`loadLogs`, `saveLogs`, `addLog`, `logTranscodeStart`,
  `logTranscodeComplete`, `logTranscodeError`, `getStats`).
* `src/src/server.js`: the logger-instrumented server variant
  (`runFfmpeg` with progress reporting, the `/transcode` handler).

JavaScript numbers are modelled as exact values (`Int`/`Nat`/`ℚ`);
strings manipulated character-wise are modelled as `List Char`.
-/

/-! ## Media profile and transcode configuration (src/unnamed/part_003) -/

/-- Result of `execProbe` (src/unnamed/part_003 lines 42-71): first video and
first audio stream of the input.  `v?.codec_name || null` and friends yield
`null` when the stream is missing, modelled as `none`. -/
structure MediaProfile where
  vcodec : Option String
  acodec : Option String
  width : Option Int
  height : Option Int
deriving DecidableEq, Repr

/-- Environment-derived encoder configuration read in the `/transcode` handler
(src/unnamed/part_003 lines 106-110).  `maxH` is
`FFMPEG_MAX_HEIGHT ? parseInt(...) : null`; a `parseInt` producing `NaN`
(which fails the `Number.isFinite` guard just like `null`) is modelled as
`none`. -/
structure TranscodeConfig where
  threads : String
  preset : String
  crf : String
  aacBR : String
  maxH : Option Int
deriving DecidableEq, Repr

/-- The guard `if (maxH && Number.isFinite(maxH))` (src/unnamed/part_003 line
118): the scale filter is pushed exactly when `maxH` parsed to a finite,
non-zero number (`0` is falsy in JavaScript). -/
def vfFilter (cfg : TranscodeConfig) : Option Int :=
  match cfg.maxH with
  | some h => if h ≠ 0 then some h else none
  | none => none

/-- Which ffmpeg invocation the handler chooses (src/unnamed/part_003 lines
112-130), carrying the exact argument list it builds. -/
inductive TranscodePlan where
  | remux (args : List String)
  | encode (args : List String)
deriving DecidableEq, Repr

def TranscodePlan.isRemux : TranscodePlan → Bool
  | .remux _ => true
  | .encode _ => false

/-- Argument list of the full-encode branch (src/unnamed/part_003 lines
117-128): `['-y','-i',input]`, then `['-vf', 'scale=-2:' + maxH]` when the
guard holds, then the codec/preset/crf/threads/audio/faststart tail. -/
def encodeArgs (cfg : TranscodeConfig) (inputPath outputPath : String) : List String :=
  ["-y", "-i", inputPath]
    ++ (match vfFilter cfg with
        | some h => ["-vf", "scale=-2:" ++ toString h]
        | none => [])
    ++ ["-c:v", "libx264",
        "-preset", cfg.preset,
        "-crf", cfg.crf,
        "-threads", cfg.threads,
        "-c:a", "aac",
        "-b:a", cfg.aacBR,
        "-movflags", "+faststart",
        outputPath]

/-- The remux-vs-encode decision (src/unnamed/part_003 lines 112-130):
`if (info.vcodec === 'h264' && info.acodec === 'aac')` stream-copy, else full
encode. -/
def transcodePlan (cfg : TranscodeConfig) (info : MediaProfile)
    (inputPath outputPath : String) : TranscodePlan :=
  if info.vcodec = some "h264" ∧ info.acodec = some "aac" then
    .remux ["-y", "-i", inputPath, "-c", "copy", "-movflags", "+faststart", outputPath]
  else
    .encode (encodeArgs cfg inputPath outputPath)

/-- Output height of the full-encode invocation, by the standard semantics of
the ffmpeg arguments the handler builds: a `scale=-2:h` video filter forces
the output height to exactly `h` (width derived to keep aspect ratio), and
with no `-vf` argument the encoder preserves the source height. -/
def encodeOutputHeight (cfg : TranscodeConfig) (srcHeight : Int) : Int :=
  match vfFilter cfg with
  | some h => h
  | none => srcHeight

/-! ## ffmpeg exit classification (src/src/server.js lines 130-161) -/

/-- JavaScript `String.prototype.slice(-n)` on a character list: the last `n`
characters (the whole string when shorter). -/
def sliceLast (l : List Char) (n : Nat) : List Char :=
  l.drop (l.length - n)

/-- Message of the rejection `new Error('ffmpeg exited with ' + code + ': ' +
stderr.slice(-4000))` (src/src/server.js line 157, identically
src/unnamed/part_003 line 80). -/
def ffmpegCloseMessage (code : Int) (stderr : List Char) : List Char :=
  "ffmpeg exited with ".data ++ (toString code).data ++ ": ".data ++ sliceLast stderr 4000

/-- The `close` handler of `runFfmpeg` (src/src/server.js lines 150-159):
exit code `0` resolves, any other exit code rejects with the message above.
`stderr` is the accumulated diagnostic stream. -/
def runFfmpegClose (code : Int) (stderr : List Char) : Except (List Char) Unit :=
  if code = 0 then .ok () else .error (ffmpegCloseMessage code stderr)

/-! ## Gateway URL construction (src/unnamed/part_003 lines 16-17 and 174) -/

/-- JavaScript `replace(/\/+$/, '')` on a character list: the regex matches
the maximal run of `'/'` at the end of the string, so every trailing slash is
removed. -/
def stripTrailingSlashes (s : List Char) : List Char :=
  (s.reverse.dropWhile (fun c => c == '/')).reverse

/-- `PINATA_GATEWAY` (src/unnamed/part_003 line 17): the configured base URL
(default `https://gateway.pinata.cloud/ipfs`) with trailing slashes
stripped. -/
def pinataGateway (env : Option (List Char)) : List Char :=
  stripTrailingSlashes (env.getD "https://gateway.pinata.cloud/ipfs".data)

/-- `gatewayUrl = PINATA_GATEWAY + '/' + cid` (src/unnamed/part_003 line
174). -/
def gatewayUrlOf (env : Option (List Char)) (cid : List Char) : List Char :=
  pinataGateway env ++ '/' :: cid

/-! ## TranscodeLogger (src/unnamed/part_003, second document, lines 192-420) -/

/-- JavaScript values as they occur in log records: `null`/`undefined`
(collapsed, since the logger only distinguishes them through truthiness and
`===` against values of other shapes), strings, numbers and booleans. -/
inductive JSVal where
  | vNull
  | vStr (s : String)
  | vNum (n : Int)
  | vBool (b : Bool)
deriving DecidableEq, Repr

open JSVal

/-- JavaScript truthiness: `null`/`undefined`, `''`, `0` and `false` are
falsy. -/
def JSVal.truthy : JSVal → Bool
  | vNull => false
  | vStr s => s ≠ ""
  | vNum n => n ≠ 0
  | vBool b => b

/-- JavaScript `a || b`. -/
def jsOr (a b : JSVal) : JSVal :=
  if a.truthy then a else b

/-- One entry of `this.logs`.  Fields cover every key the logger methods ever
set; a field a given record does not carry (JavaScript `undefined`) is `vNull`
/ `none`.  `duration`, `startTime`, `fileSize` are always numbers or absent,
and `success` a boolean or absent, so they are typed directly. -/
structure LogRecord where
  id : String := ""
  status : String := ""
  timestamp : String := ""
  user : JSVal := vNull
  filename : JSVal := vNull
  fileSize : Option Int := none
  clientIP : JSVal := vNull
  userAgent : JSVal := vNull
  origin : JSVal := vNull
  platform : JSVal := vNull
  deviceInfo : JSVal := vNull
  browserInfo : JSVal := vNull
  userHP : JSVal := vNull
  correlationId : JSVal := vNull
  viewport : JSVal := vNull
  connectionType : JSVal := vNull
  startTime : Option Int := none
  cid : JSVal := vNull
  gatewayUrl : JSVal := vNull
  duration : Option Int := none
  error : JSVal := vNull
  success : Option Bool := none
deriving DecidableEq, Repr

/-- `this.maxLogs` (constructor default, src/unnamed/part_003 line 193). -/
def maxLogs : Nat := 100

/-- `this.logs.slice(-this.maxLogs)` (src/unnamed/part_003 lines 213 and
224): the most recent `maxLogs` entries, or all of them when fewer. -/
def sliceLastLogs (logs : List LogRecord) : List LogRecord :=
  logs.drop (logs.length - maxLogs)

/-- `loadLogs` (src/unnamed/part_003 lines 200-219) on the records parsed
from the persisted file; reading and JSON decoding are abstracted (any I/O or
parse error resets `this.logs` to `[]`, which trivially satisfies the size
bound). -/
def loadLogs (persisted : List LogRecord) : List LogRecord :=
  sliceLastLogs persisted

/-- The enrichment `{...logEntry, timestamp: new Date().toISOString(), id:
logEntry.id || 'unknown'}` performed by `addLog` (src/unnamed/part_003 lines
234-238); the ambient clock is passed in as `now`. -/
def enrichLog (e : LogRecord) (now : String) : LogRecord :=
  { e with timestamp := now, id := if e.id = "" then "unknown" else e.id }

/-- `addLog` (src/unnamed/part_003 lines 233-245): push the enriched record,
then `saveLogs` re-bounds `this.logs` to the last `maxLogs` entries before
persisting (console output and the file write have no effect on the state). -/
def addLog (logs : List LogRecord) (e : LogRecord) (now : String) : List LogRecord :=
  sliceLastLogs (logs ++ [enrichLog e now])

/-- Arguments destructured by `logTranscodeStart` (src/unnamed/part_003 line
299). -/
structure StartArgs where
  id : String := ""
  user : JSVal := vNull
  filename : JSVal := vNull
  fileSize : Option Int := none
  clientIP : JSVal := vNull
  userAgent : JSVal := vNull
  origin : JSVal := vNull
  platform : JSVal := vNull
  deviceInfo : JSVal := vNull
  browserInfo : JSVal := vNull
  userHP : JSVal := vNull
  correlationId : JSVal := vNull
  viewport : JSVal := vNull
  connectionType : JSVal := vNull
deriving DecidableEq, Repr

/-- `logTranscodeStart` (src/unnamed/part_003 lines 299-318).  `nowMs` is the
`Date.now()` stored as `startTime`. -/
def logTranscodeStart (logs : List LogRecord) (a : StartArgs)
    (now : String) (nowMs : Int) : List LogRecord :=
  addLog logs
    { id := a.id
      status := "started"
      user := jsOr a.user (vStr "anonymous")
      filename := a.filename
      fileSize := a.fileSize
      clientIP := a.clientIP
      userAgent := a.userAgent
      origin := a.origin
      platform := jsOr a.platform (vStr "unknown")
      deviceInfo := jsOr a.deviceInfo (vStr "unknown")
      browserInfo := jsOr a.browserInfo (vStr "")
      userHP := jsOr a.userHP (vNum 0)
      correlationId := jsOr a.correlationId vNull
      viewport := jsOr a.viewport vNull
      connectionType := jsOr a.connectionType vNull
      startTime := some nowMs } now

/-- The lookup `this.logs.find(log => log.id === id && log.status ===
'started')` (src/unnamed/part_003 lines 322 and 347). -/
def findStartLog (logs : List LogRecord) (id : String) : Option LogRecord :=
  logs.find? (fun l => l.id == id && l.status == "started")

/-- `startLog?.field`, which is `undefined` when the lookup found nothing
(collapsed to `vNull`; only its falsiness is ever used). -/
def optField (o : Option LogRecord) (f : LogRecord → JSVal) : JSVal :=
  match o with
  | none => vNull
  | some l => f l

/-- Arguments destructured by `logTranscodeComplete` (src/unnamed/part_003
line 320). -/
structure CompleteArgs where
  id : String := ""
  user : JSVal := vNull
  filename : JSVal := vNull
  cid : JSVal := vNull
  gatewayUrl : JSVal := vNull
  duration : Option Int := none
  clientIP : JSVal := vNull
deriving DecidableEq, Repr

/-- The record object literal `logTranscodeComplete` passes to `addLog`
(src/unnamed/part_003 lines 324-342), with the context fields filled from the
looked-up start record via `startLog?.field || null`. -/
def completeRecord (logs : List LogRecord) (a : CompleteArgs) : LogRecord :=
  let startLog := findStartLog logs a.id
  { id := a.id
    status := "completed"
    user := jsOr a.user (vStr "anonymous")
    filename := a.filename
    cid := a.cid
    gatewayUrl := a.gatewayUrl
    duration := a.duration
    clientIP := a.clientIP
    success := some true
    platform := jsOr (optField startLog (·.platform)) vNull
    deviceInfo := jsOr (optField startLog (·.deviceInfo)) vNull
    browserInfo := jsOr (optField startLog (·.browserInfo)) vNull
    userHP := jsOr (optField startLog (·.userHP)) vNull
    correlationId := jsOr (optField startLog (·.correlationId)) vNull
    viewport := jsOr (optField startLog (·.viewport)) vNull
    connectionType := jsOr (optField startLog (·.connectionType)) vNull }

/-- `logTranscodeComplete` (src/unnamed/part_003 lines 320-343). -/
def logTranscodeComplete (logs : List LogRecord) (a : CompleteArgs)
    (now : String) : List LogRecord :=
  addLog logs (completeRecord logs a) now

/-- Arguments destructured by `logTranscodeError` (src/unnamed/part_003 line
345); `error` is the message string or `null` (an `Error` argument is passed
through `error?.message`, yielding the same string). -/
structure ErrorArgs where
  id : String := ""
  user : JSVal := vNull
  filename : JSVal := vNull
  error : JSVal := vNull
  duration : Option Int := none
  clientIP : JSVal := vNull
deriving DecidableEq, Repr

/-- The record object literal `logTranscodeError` passes to `addLog`
(src/unnamed/part_003 lines 349-366). -/
def errorRecord (logs : List LogRecord) (a : ErrorArgs) : LogRecord :=
  let startLog := findStartLog logs a.id
  { id := a.id
    status := "failed"
    user := jsOr a.user (vStr "anonymous")
    filename := a.filename
    error := jsOr a.error (vStr "Unknown error")
    duration := a.duration
    clientIP := a.clientIP
    success := some false
    platform := jsOr (optField startLog (·.platform)) vNull
    deviceInfo := jsOr (optField startLog (·.deviceInfo)) vNull
    browserInfo := jsOr (optField startLog (·.browserInfo)) vNull
    userHP := jsOr (optField startLog (·.userHP)) vNull
    correlationId := jsOr (optField startLog (·.correlationId)) vNull
    viewport := jsOr (optField startLog (·.viewport)) vNull
    connectionType := jsOr (optField startLog (·.connectionType)) vNull }

/-- `logTranscodeError` (src/unnamed/part_003 lines 345-367). -/
def logTranscodeError (logs : List LogRecord) (a : ErrorArgs)
    (now : String) : List LogRecord :=
  addLog logs (errorRecord logs a) now

/-! ### `getStats` (src/unnamed/part_003 lines 399-417) -/

/-- Truthiness of `log.duration` (a number or absent). -/
def durationTruthy (l : LogRecord) : Bool :=
  match l.duration with
  | some d => d ≠ 0
  | none => false

/-- `log.duration` coerced to a rational for the average (only applied to
records whose duration is a present number). -/
def durationQ (l : LogRecord) : ℚ :=
  match l.duration with
  | some d => (d : ℚ)
  | none => 0

/-- The array `getStats` averages over: `this.logs.filter(log => log.duration
&& log.success === true)` (src/unnamed/part_003 line 406). -/
def statsDurationLogs (logs : List LogRecord) : List LogRecord :=
  logs.filter (fun l => durationTruthy l && l.success == some true)

/-- Result shape of `getStats`; `avgDuration` and `successRate` are the
`Math.round`ed integers. -/
structure Stats where
  total : Nat
  successful : Nat
  failed : Nat
  inProgress : Nat
  avgDuration : ℤ
  successRate : ℤ
deriving DecidableEq, Repr

/-- `getStats` (src/unnamed/part_003 lines 399-417).  The `reduce((sum, log,
_, arr) => sum + log.duration / arr.length, 0)` divides each duration by the
filtered array's length; `Math.round` is rounding half towards positive
infinity, i.e. Mathlib's `round` on exact rationals. -/
def getStats (logs : List LogRecord) : Stats :=
  let total := logs.length
  let successful := (logs.filter (fun l => l.success == some true)).length
  let failed := (logs.filter (fun l => l.success == some false)).length
  let inProgress := (logs.filter (fun l => l.status == "started" || l.status == "processing")).length
  let durArr := statsDurationLogs logs
  let avgDuration := durArr.foldl (fun sum l => sum + durationQ l / (durArr.length : ℚ)) 0
  { total := total
    successful := successful
    failed := failed
    inProgress := inProgress
    avgDuration := round avgDuration
    successRate := if total > 0 then round (((successful : ℚ) / (total : ℚ)) * 100) else 0 }

/-! ## The `/transcode` handler of src/src/server.js (lines 164-329) -/

/-- The file multer attached to the request (`req.file`): temp path under the
OS temp dir, original name, size. -/
structure UploadedFile where
  path : String
  originalname : String
  size : Nat
deriving DecidableEq, Repr

/-- The request as the handler sees it: the optional multer file plus the
header-derived strings bound on src/src/server.js lines 167-169. -/
structure ServerRequest where
  file : Option UploadedFile
  ip : Option String
  userAgent : Option String
  origin : Option String
deriving DecidableEq, Repr

/-- A call into the `TranscodeLogger` instance made by the handler. -/
inductive LoggerCall where
  | start
  | complete
  | failed
deriving DecidableEq, Repr

/-- An exception escaping the handler. -/
inductive JsError where
  | referenceError (msg : String)
deriving DecidableEq, Repr

/-- An HTTP response sent with `res.status(...).json(...)`; the body is the
list of keys of the JSON object with their stringified values. -/
structure HttpResponse where
  status : Nat
  body : List (String × String)
deriving DecidableEq, Repr

/-- Everything observable about one run of the handler: logger calls made, the
response sent (if any), an exception escaping the async function (if any), and
whether `fs.unlinkSync` was attempted on the input and output temp files. -/
structure HandlerRun where
  loggerCalls : List LoggerCall
  response : Option HttpResponse
  thrown : Option JsError
  unlinkInputAttempted : Bool
  unlinkOutputAttempted : Bool
deriving DecidableEq, Repr

/-- The `POST /transcode` handler of src/src/server.js (lines 164-329),
evaluated step by step:

* lines 165-169 bind `requestId`, `startTime`, `clientIP`, `userAgent`,
  `origin` — pure local constants, no observable effect;
* line 173 evaluates `formData.get('creator')`.  The identifier `formData`
  is not declared anywhere in the module (the handler reads its form fields
  from `req.body` everywhere else), so this evaluation throws
  `ReferenceError: formData is not defined`.  The throw happens before
  `logger.logTranscodeStart` (line 184), before the `if (!req.file)`
  validation (line 201), and before the `try` statement (line 218), so the
  `finally` cleanup block (lines 320-328) never runs.  Express 4 does not
  catch rejections of async handlers, so no response is sent for any request,
  with or without a file. -/
def transcodeHandler (_req : ServerRequest) : HandlerRun :=
  { loggerCalls := []
    response := none
    thrown := some (JsError.referenceError "formData is not defined")
    unlinkInputAttempted := false
    unlinkOutputAttempted := false }

/-! ## Helper lemmas -/

/-- The head surviving a `dropWhile` fails the predicate. -/
theorem head_dropWhile_false {α : Type} (p : α → Bool) :
    ∀ (l : List α) (x : α), (l.dropWhile p).head? = some x → p x = false := by
  intro l
  induction l with
  | nil => intro x h; simp [List.dropWhile] at h
  | cons a t ih =>
    intro x h
    by_cases hp : p a = true
    · rw [List.dropWhile_cons_of_pos hp] at h
      exact ih x h
    · rw [List.dropWhile_cons_of_neg hp] at h
      simp only [List.head?_cons, Option.some.injEq] at h
      subst h
      simpa using hp

/-- Re-bounding is the identity on already-bounded lists. -/
theorem sliceLastLogs_of_le (l : List LogRecord) (h : l.length ≤ maxLogs) :
    sliceLastLogs l = l := by
  unfold sliceLastLogs
  have : l.length - maxLogs = 0 := by omega
  simp [this]

/-- The re-bounded list never exceeds the bound. -/
theorem sliceLastLogs_length_le (l : List LogRecord) :
    (sliceLastLogs l).length ≤ maxLogs := by
  simp only [sliceLastLogs, List.length_drop]
  omega

/-- Appending one element to an already-bounded list and re-bounding agrees
with re-bounding the unbounded history. -/
theorem sliceLastLogs_append_one (l : List LogRecord) (x : LogRecord) :
    sliceLastLogs (sliceLastLogs l ++ [x]) = sliceLastLogs (l ++ [x]) := by
  by_cases h : l.length ≤ maxLogs
  · rw [sliceLastLogs_of_le l h]
  · unfold sliceLastLogs
    have hm : maxLogs = 100 := rfl
    set k := l.length - maxLogs with hk
    have h1 : (List.drop k l ++ [x]).length - maxLogs = 1 := by
      simp only [List.length_append, List.length_drop, List.length_singleton]
      omega
    have h2 : (l ++ [x]).length - maxLogs = k + 1 := by
      simp only [List.length_append, List.length_singleton]
      omega
    rw [h1, h2]
    have h3 : (1 : Nat) ≤ (List.drop k l).length := by
      simp only [List.length_drop]
      omega
    rw [List.drop_append_of_le_length h3]
    have h4 : k + 1 ≤ l.length := by omega
    rw [List.drop_append_of_le_length h4, List.drop_drop]

/-- Folding `addLog` from a bounded state retains exactly the most recent
`maxLogs` of the full append history. -/
theorem foldl_addLog_eq (evs : List (LogRecord × String)) :
    ∀ st : List LogRecord,
      evs.foldl (fun s e => addLog s e.1 e.2) (sliceLastLogs st)
        = sliceLastLogs (st ++ evs.map (fun e => enrichLog e.1 e.2)) := by
  induction evs with
  | nil => intro st; simp
  | cons e t ih =>
    intro st
    simp only [List.foldl_cons, List.map_cons]
    have h1 : addLog (sliceLastLogs st) e.1 e.2
        = sliceLastLogs (st ++ [enrichLog e.1 e.2]) := by
      rw [addLog, sliceLastLogs_append_one]
    rw [h1]
    have h2 := ih (st ++ [enrichLog e.1 e.2])
    rw [h2, List.append_assoc]
    rfl

/-- Summing `x / c` over a list equals the sum divided by `c`. -/
theorem foldl_add_div (c : ℚ) :
    ∀ (l : List ℚ) (acc : ℚ), l.foldl (fun s x => s + x / c) acc = acc + l.sum / c := by
  intro l
  induction l with
  | nil => intro acc; simp
  | cons x t ih =>
    intro acc
    simp only [List.foldl_cons, List.sum_cons]
    rw [ih, add_div, add_assoc]

/-! ## Claim C1 -/

/-- Claim C1: the pipeline takes the remux path iff the probed profile has
`vcodec = "h264"` and `acodec = "aac"` exactly (a missing stream probes as
`null` and therefore full-encodes), and the decision is invariant under any
change of the probed width/height and of the configured max-height cap. -/
theorem remux_iff_h264_aac (cfg : TranscodeConfig) (info : MediaProfile)
    (inP outP : String) :
    ((transcodePlan cfg info inP outP).isRemux = true ↔
      info.vcodec = some "h264" ∧ info.acodec = some "aac")
    ∧ (∀ w h maxH',
        (transcodePlan { cfg with maxH := maxH' }
            { info with width := w, height := h } inP outP).isRemux
          = (transcodePlan cfg info inP outP).isRemux)
    ∧ ((info.vcodec = none ∨ info.acodec = none) →
        (transcodePlan cfg info inP outP).isRemux = false) := by
  refine ⟨?_, ?_, ?_⟩
  · by_cases hc : info.vcodec = some "h264" ∧ info.acodec = some "aac" <;>
      simp [transcodePlan, hc, TranscodePlan.isRemux]
  · intro w h maxH'
    by_cases hc : info.vcodec = some "h264" ∧ info.acodec = some "aac" <;>
      simp [transcodePlan, hc, TranscodePlan.isRemux]
  · intro hmiss
    have hc : ¬ (info.vcodec = some "h264" ∧ info.acodec = some "aac") := by
      rcases hmiss with hv | ha
      · intro hcc; rw [hcc.1] at hv; cases hv
      · intro hcc; rw [hcc.2] at ha; cases ha
    simp [transcodePlan, hc, TranscodePlan.isRemux]

/-- Witness for C1: a 1080p h264/aac probe with a 720 cap configured still
remuxes, and a vp9/opus probe does not. -/
theorem remux_iff_h264_aac_witness :
    (transcodePlan ⟨"1", "veryfast", "22", "128k", some 720⟩
        ⟨some "h264", some "aac", some 1920, some 1080⟩ "in.mov" "out.mp4").isRemux = true
    ∧ (transcodePlan ⟨"1", "veryfast", "22", "128k", some 720⟩
        ⟨some "vp9", none, some 640, some 480⟩ "in.webm" "out.mp4").isRemux = false :=
  ⟨(remux_iff_h264_aac ⟨"1", "veryfast", "22", "128k", some 720⟩
      ⟨some "h264", some "aac", some 1920, some 1080⟩ "in.mov" "out.mp4").1.mpr
      ⟨rfl, rfl⟩,
   (remux_iff_h264_aac ⟨"1", "veryfast", "22", "128k", some 720⟩
      ⟨some "vp9", none, some 640, some 480⟩ "in.webm" "out.mp4").2.2
      (Or.inr rfl)⟩

/-! ## Claim C3 -/

/-- Counterexample to claim C3: with `FFMPEG_MAX_HEIGHT=720` configured and a
480-pixel-high vp9/opus source taking the full-encode path, the cap (720) is
greater than or equal to the source height (480), yet the built argument list
carries `scale=-2:720` unconditionally, so the output height is 720, not 480:
the encode path upscales. -/
theorem encode_upscale_counterexample :
    transcodePlan ⟨"1", "veryfast", "22", "128k", some 720⟩
        ⟨some "vp9", some "opus", some 854, some 480⟩ "in.webm" "out.mp4"
      = .encode ["-y", "-i", "in.webm", "-vf", "scale=-2:720",
          "-c:v", "libx264", "-preset", "veryfast", "-crf", "22", "-threads", "1",
          "-c:a", "aac", "-b:a", "128k", "-movflags", "+faststart", "out.mp4"]
    ∧ (480 : Int) ≤ 720
    ∧ encodeOutputHeight ⟨"1", "veryfast", "22", "128k", some 720⟩ 480 = 720
    ∧ ¬ encodeOutputHeight ⟨"1", "veryfast", "22", "128k", some 720⟩ 480 = 480 := by
  refine ⟨?_, by norm_num, rfl, by decide⟩
  rfl

/-- Claim C3 as amended: on the full-encode path, when a (finite, non-zero)
max height is configured the scale filter is always attached and the output
height equals the configured cap regardless of the source height — so the
encode downscales and upscales alike; only with no cap configured does the
output height equal the source height. -/
theorem encode_height_follows_cap (cfg : TranscodeConfig) (info : MediaProfile)
    (inP outP : String) (srcH : Int)
    (hnr : ¬ (info.vcodec = some "h264" ∧ info.acodec = some "aac")) :
    transcodePlan cfg info inP outP = .encode (encodeArgs cfg inP outP)
    ∧ (∀ h, vfFilter cfg = some h →
        encodeArgs cfg inP outP
          = ["-y", "-i", inP, "-vf", "scale=-2:" ++ toString h,
             "-c:v", "libx264", "-preset", cfg.preset, "-crf", cfg.crf,
             "-threads", cfg.threads, "-c:a", "aac", "-b:a", cfg.aacBR,
             "-movflags", "+faststart", outP]
        ∧ encodeOutputHeight cfg srcH = h)
    ∧ (vfFilter cfg = none →
        encodeArgs cfg inP outP
          = ["-y", "-i", inP,
             "-c:v", "libx264", "-preset", cfg.preset, "-crf", cfg.crf,
             "-threads", cfg.threads, "-c:a", "aac", "-b:a", cfg.aacBR,
             "-movflags", "+faststart", outP]
        ∧ encodeOutputHeight cfg srcH = srcH) := by
  refine ⟨by simp [transcodePlan, hnr], ?_, ?_⟩
  · intro h hf
    rw [encodeArgs, encodeOutputHeight, hf]
    simp
  · intro hf
    rw [encodeArgs, encodeOutputHeight, hf]
    simp

/-- Witness for the amended C3: a vp9/opus source with a 720 cap encodes with
`scale=-2:720` and output height 720 even from a 480-pixel source. -/
theorem encode_height_follows_cap_witness :
    transcodePlan ⟨"2", "fast", "20", "160k", some 720⟩
        ⟨some "vp9", some "opus", some 640, some 360⟩ "a.webm" "b.mp4"
      = .encode (encodeArgs ⟨"2", "fast", "20", "160k", some 720⟩ "a.webm" "b.mp4")
    ∧ encodeOutputHeight ⟨"2", "fast", "20", "160k", some 720⟩ 360 = 720 :=
  ⟨(encode_height_follows_cap ⟨"2", "fast", "20", "160k", some 720⟩
      ⟨some "vp9", some "opus", some 640, some 360⟩ "a.webm" "b.mp4" 360
      (by simp)).1,
   ((encode_height_follows_cap ⟨"2", "fast", "20", "160k", some 720⟩
      ⟨some "vp9", some "opus", some 640, some 360⟩ "a.webm" "b.mp4" 360
      (by simp)).2.1 720 rfl).2⟩

/-! ## Claim C4 -/

/-- Claim C4: the ffmpeg `close` handler resolves exactly on exit code 0; any
non-zero code rejects with a message that embeds the exit code and a
diagnostic tail which is a suffix of the accumulated stderr of length at most
4000 characters, however much the subprocess emitted. -/
theorem ffmpegClose_classifies (code : Int) (stderr : List Char) :
    (code = 0 → runFfmpegClose code stderr = .ok ())
    ∧ (code ≠ 0 →
        runFfmpegClose code stderr
          = .error ("ffmpeg exited with ".data ++ (toString code).data
              ++ ": ".data ++ sliceLast stderr 4000)
        ∧ (sliceLast stderr 4000).length ≤ 4000
        ∧ sliceLast stderr 4000 <:+ stderr
        ∧ (toString code).data <:+: ffmpegCloseMessage code stderr) := by
  constructor
  · intro h
    simp [runFfmpegClose, h]
  · intro h
    refine ⟨by simp [runFfmpegClose, h, ffmpegCloseMessage], ?_, ?_, ?_⟩
    · simp only [sliceLast, List.length_drop]
      omega
    · exact List.drop_suffix _ _
    · exact ⟨"ffmpeg exited with ".data, ": ".data ++ sliceLast stderr 4000,
        by simp [ffmpegCloseMessage, List.append_assoc]⟩

/-- Witness for C4 at exit codes 0 and 1 on a short stderr. -/
theorem ffmpegClose_classifies_witness :
    runFfmpegClose 0 "frame=1".data = .ok ()
    ∧ (runFfmpegClose 1 "boom".data
        = .error ("ffmpeg exited with ".data ++ (toString (1 : Int)).data
            ++ ": ".data ++ sliceLast "boom".data 4000)
       ∧ (sliceLast "boom".data 4000).length ≤ 4000
       ∧ sliceLast "boom".data 4000 <:+ "boom".data
       ∧ (toString (1 : Int)).data <:+: ffmpegCloseMessage 1 "boom".data) :=
  ⟨(ffmpegClose_classifies 0 "frame=1".data).1 rfl,
   (ffmpegClose_classifies 1 "boom".data).2 (by decide)⟩

/-! ## Claim C10 -/

/-- Claim C10: the gateway URL is the configured base with every trailing
slash removed, then exactly one `'/'`, then the content identifier; the
stripped base never ends in `'/'`, so no duplicated slash arises at the
junction even when the configured base ends in one or more slashes. -/
theorem gatewayUrl_single_slash (env : Option (List Char)) (cid : List Char) :
    gatewayUrlOf env cid
      = stripTrailingSlashes (env.getD "https://gateway.pinata.cloud/ipfs".data)
          ++ '/' :: cid
    ∧ (∀ c, (stripTrailingSlashes
          (env.getD "https://gateway.pinata.cloud/ipfs".data)).getLast? = some c →
        c ≠ '/') := by
  refine ⟨rfl, ?_⟩
  intro c hc
  rw [stripTrailingSlashes, List.getLast?_reverse] at hc
  have h := head_dropWhile_false (fun c => c == '/') _ c hc
  simpa using h

/-- Witness for C10: a base configured with two trailing slashes yields a
single slash before the identifier. -/
theorem gatewayUrl_single_slash_witness :
    gatewayUrlOf (some "http://g//".data) "Qm1".data = "http://g/Qm1".data
    ∧ ('g' : Char) ≠ '/' :=
  ⟨(gatewayUrl_single_slash (some "http://g//".data) "Qm1".data).1.trans (by decide),
   (gatewayUrl_single_slash (some "http://g//".data) "Qm1".data).2 'g' (by decide)⟩

/-! ## Claim C9 -/

/-- Claim C9: starting from an empty store, after any sequence of appends the
retained records are exactly the most recent `maxLogs` (100) enriched appends
in order (so the oldest entries are evicted first and the bound holds after
every append), and loading persisted records likewise retains at most the
most recent `maxLogs` of them. -/
theorem logger_bounded_most_recent (evs : List (LogRecord × String))
    (persisted : List LogRecord) :
    evs.foldl (fun s e => addLog s e.1 e.2) []
      = sliceLastLogs (evs.map (fun e => enrichLog e.1 e.2))
    ∧ (evs.foldl (fun s e => addLog s e.1 e.2) []).length ≤ maxLogs
    ∧ loadLogs persisted = sliceLastLogs persisted
    ∧ (loadLogs persisted).length ≤ maxLogs := by
  have h : evs.foldl (fun s e => addLog s e.1 e.2) []
      = sliceLastLogs (evs.map (fun e => enrichLog e.1 e.2)) := by
    have h0 := foldl_addLog_eq evs []
    simpa using h0
  refine ⟨h, ?_, rfl, sliceLastLogs_length_le persisted⟩
  rw [h]
  exact sliceLastLogs_length_le _

/-! ## Claim C7 -/

/-- Claim C7: `successRate` is `round(100 * successful / total)` for a
non-empty store and `0` for an empty one, with `successful` counting retained
records marked successful and `total` all retained records; `avgDuration` is
the rounded mean over the records the duration filter retains, and every
record that filter retains is successful with a non-null duration. -/
theorem getStats_rate_and_avg (logs : List LogRecord) :
    ((getStats logs).successRate
      = if 0 < logs.length
        then round ((100 : ℚ)
            * ((logs.filter (fun l => l.success == some true)).length : ℚ)
            / (logs.length : ℚ))
        else 0)
    ∧ (getStats logs).avgDuration
      = round (((statsDurationLogs logs).map durationQ).sum
          / ((statsDurationLogs logs).length : ℚ))
    ∧ ∀ l ∈ statsDurationLogs logs, l.success = some true ∧ l.duration ≠ none := by
  refine ⟨?_, ?_, ?_⟩
  · by_cases hl : 0 < logs.length
    · simp only [getStats, hl, if_true]
      congr 1
      ring
    · simp only [getStats, hl, if_false]
  · simp only [getStats]
    congr 1
    rw [← List.foldl_map (f := durationQ)
      (g := fun s x => s + x / ((statsDurationLogs logs).length : ℚ))]
    rw [foldl_add_div ((statsDurationLogs logs).length : ℚ)
      ((statsDurationLogs logs).map durationQ) 0]
    rw [zero_add]
  · intro l hl
    rw [statsDurationLogs, List.mem_filter] at hl
    have hp := hl.2
    rw [Bool.and_eq_true] at hp
    refine ⟨by simpa using hp.2, ?_⟩
    have hd := hp.1
    cases hdur : l.duration with
    | none => rw [durationTruthy, hdur] at hd; cases hd
    | some d => simp [hdur]

/-! ## Claim C8 -/

/-- Claim C8, as amended: when a terminal (`completed`/`failed`) record is
appended for a requestId whose `started` record the find-by-id lookup still
retrieves, each contextual field of the terminal record is
`startRecord.field || null` — the start value whenever that value is truthy,
`null` otherwise (so a falsy start value such as the empty-string
`browserInfo` default or a zero `userHP` is normalized to `null`, not copied
verbatim) — and the append leaves every pre-existing record unmodified, only
re-bounding the sequence. -/
theorem terminal_record_inherits_context (st : List LogRecord)
    (ca : CompleteArgs) (ea : ErrorArgs) (now now2 : String) (s t : LogRecord)
    (hs : findStartLog st ca.id = some s)
    (ht : findStartLog st ea.id = some t) :
    (logTranscodeComplete st ca now
        = sliceLastLogs (st ++ [enrichLog (completeRecord st ca) now])
      ∧ (completeRecord st ca).platform = jsOr s.platform vNull
      ∧ (completeRecord st ca).deviceInfo = jsOr s.deviceInfo vNull
      ∧ (completeRecord st ca).browserInfo = jsOr s.browserInfo vNull
      ∧ (completeRecord st ca).userHP = jsOr s.userHP vNull
      ∧ (completeRecord st ca).correlationId = jsOr s.correlationId vNull
      ∧ (completeRecord st ca).viewport = jsOr s.viewport vNull
      ∧ (completeRecord st ca).connectionType = jsOr s.connectionType vNull)
    ∧ (logTranscodeError st ea now2
        = sliceLastLogs (st ++ [enrichLog (errorRecord st ea) now2])
      ∧ (errorRecord st ea).platform = jsOr t.platform vNull
      ∧ (errorRecord st ea).deviceInfo = jsOr t.deviceInfo vNull
      ∧ (errorRecord st ea).browserInfo = jsOr t.browserInfo vNull
      ∧ (errorRecord st ea).userHP = jsOr t.userHP vNull
      ∧ (errorRecord st ea).correlationId = jsOr t.correlationId vNull
      ∧ (errorRecord st ea).viewport = jsOr t.viewport vNull
      ∧ (errorRecord st ea).connectionType = jsOr t.connectionType vNull)
    ∧ (∀ v : JSVal, v.truthy = true → jsOr v vNull = v)
    ∧ (st.length < maxLogs →
        logTranscodeComplete st ca now
          = st ++ [enrichLog (completeRecord st ca) now]) := by
  refine ⟨⟨rfl, ?_, ?_, ?_, ?_, ?_, ?_, ?_⟩, ⟨rfl, ?_, ?_, ?_, ?_, ?_, ?_, ?_⟩, ?_, ?_⟩
  all_goals first
    | (simp [completeRecord, hs, optField])
    | (simp [errorRecord, ht, optField])
    | skip
  · intro v hv
    simp [jsOr, hv]
  · intro hlen
    have hle : (st ++ [enrichLog (completeRecord st ca) now]).length ≤ maxLogs := by
      simp only [List.length_append, List.length_singleton]
      omega
    rw [logTranscodeComplete, addLog, sliceLastLogs_of_le _ hle]
    simp [completeRecord, hs, optField]

/-- Witness for the amended C8: a started record with truthy context fields
has them inherited verbatim by the terminal record, and the append keeps the
original record as-is. -/
theorem terminal_record_inherits_context_witness :
    (completeRecord
        [{ id := "w1", status := "started", platform := vStr "web",
           deviceInfo := vStr "desktop/macos/chrome",
           browserInfo := vStr "Chrome 120", userHP := vNum 42 }]
        { id := "w1", user := vStr "bob", cid := vStr "bafyw",
          duration := some 900 }).platform = vStr "web"
    ∧ logTranscodeComplete
        [{ id := "w1", status := "started", platform := vStr "web",
           deviceInfo := vStr "desktop/macos/chrome",
           browserInfo := vStr "Chrome 120", userHP := vNum 42 }]
        { id := "w1", user := vStr "bob", cid := vStr "bafyw",
          duration := some 900 } "ts1"
      = [{ id := "w1", status := "started", platform := vStr "web",
           deviceInfo := vStr "desktop/macos/chrome",
           browserInfo := vStr "Chrome 120", userHP := vNum 42 }]
        ++ [enrichLog (completeRecord
             [{ id := "w1", status := "started", platform := vStr "web",
                deviceInfo := vStr "desktop/macos/chrome",
                browserInfo := vStr "Chrome 120", userHP := vNum 42 }]
             { id := "w1", user := vStr "bob", cid := vStr "bafyw",
               duration := some 900 }) "ts1"] := by
  have h := terminal_record_inherits_context
      [{ id := "w1", status := "started", platform := vStr "web",
         deviceInfo := vStr "desktop/macos/chrome",
         browserInfo := vStr "Chrome 120", userHP := vNum 42 }]
      { id := "w1", user := vStr "bob", cid := vStr "bafyw", duration := some 900 }
      { id := "w1", error := vStr "boom", duration := some 5 }
      "ts1" "ts2"
      { id := "w1", status := "started", platform := vStr "web",
        deviceInfo := vStr "desktop/macos/chrome",
        browserInfo := vStr "Chrome 120", userHP := vNum 42 }
      { id := "w1", status := "started", platform := vStr "web",
        deviceInfo := vStr "desktop/macos/chrome",
        browserInfo := vStr "Chrome 120", userHP := vNum 42 }
      (by decide) (by decide)
  refine ⟨?_, h.2.2.2 (by decide)⟩
  rw [h.1.2.1]
  decide

/-- Counterexample to C8 as stated: the repository's own test driver
(`test-logs.js`) calls `logTranscodeStart` without `browserInfo`, so the
retained started record carries `browserInfo = ''`; the terminal record
appended by `logTranscodeComplete` for that requestId then carries
`browserInfo = null`, not a copy of the started record's value. -/
theorem terminal_record_context_not_copied :
    (findStartLog
        (logTranscodeStart []
          { id := "test001", user := vStr "alice_skater",
            filename := vStr "kickflip_360.mov", fileSize := some 25123456,
            clientIP := vStr "192.168.1.100", userAgent := vStr "Test-Agent/1.0",
            origin := vStr "http://test.skatehive.app" }
          "2025-01-01T00:00:00.000Z" 1735689600000)
        "test001").map (fun l => l.browserInfo) = some (vStr "")
    ∧ ((logTranscodeComplete
          (logTranscodeStart []
            { id := "test001", user := vStr "alice_skater",
              filename := vStr "kickflip_360.mov", fileSize := some 25123456,
              clientIP := vStr "192.168.1.100", userAgent := vStr "Test-Agent/1.0",
              origin := vStr "http://test.skatehive.app" }
            "2025-01-01T00:00:00.000Z" 1735689600000)
          { id := "test001", user := vStr "alice_skater",
            filename := vStr "kickflip_360.mov", cid := vStr "bafytest",
            gatewayUrl := vStr "https://gateway.pinata.cloud/ipfs/bafytest",
            duration := some 2500, clientIP := vStr "192.168.1.100" }
          "2025-01-01T00:00:03.000Z").getLast?.map (fun l => l.browserInfo))
        = some vNull
    ∧ (vNull : JSVal) ≠ vStr "" := by
  refine ⟨by decide, by decide, by decide⟩

/-! ## Claims C2, C5, C6 (src/src/server.js handler) -/

/-- Claim C2 fails on the code: a `/transcode` request with no uploaded file
never reaches the missing-file validation.  The handler dereferences the
undeclared identifier `formData` (src/src/server.js line 173) and throws a
`ReferenceError` first, so no 4xx response is sent and the Operation Recorder
receives no record at all — neither the `Failed` record the claim requires
nor a `Started` one. -/
theorem missing_file_request_throws :
    (transcodeHandler
        { file := none, ip := some "203.0.113.5",
          userAgent := some "curl/8.4.0", origin := none }).response = none
    ∧ (transcodeHandler
        { file := none, ip := some "203.0.113.5",
          userAgent := some "curl/8.4.0", origin := none }).loggerCalls = []
    ∧ (transcodeHandler
        { file := none, ip := some "203.0.113.5",
          userAgent := some "curl/8.4.0", origin := none }).thrown
        = some (JsError.referenceError "formData is not defined") :=
  ⟨rfl, rfl, rfl⟩

/-- Claim C5 fails on the code: even for a validated request (file present),
the `ReferenceError` thrown at src/src/server.js line 173 terminates the
handler before the `try` statement of line 218 is entered, so the `finally`
cleanup block (lines 320-328) never runs: neither the multer-written input
temp file nor the output temp file is ever unlinked. -/
theorem validated_request_cleanup_skipped :
    (transcodeHandler
        { file := some (UploadedFile.mk "/tmp/1700000000-a.mov" "a.mov" 1048576),
          ip := some "198.51.100.7", userAgent := some "Mozilla/5.0",
          origin := some "https://skatehive.app" }).unlinkInputAttempted = false
    ∧ (transcodeHandler
        { file := some (UploadedFile.mk "/tmp/1700000000-a.mov" "a.mov" 1048576),
          ip := some "198.51.100.7", userAgent := some "Mozilla/5.0",
          origin := some "https://skatehive.app" }).unlinkOutputAttempted = false
    ∧ (transcodeHandler
        { file := some (UploadedFile.mk "/tmp/1700000000-a.mov" "a.mov" 1048576),
          ip := some "198.51.100.7", userAgent := some "Mozilla/5.0",
          origin := some "https://skatehive.app" }).thrown ≠ none :=
  ⟨rfl, rfl, by decide⟩

/-- Claim C6 fails on the code: no `/transcode` request — with a file (the
would-be 200 path) or without one (the would-be 400 path) — receives any
response body at all, because the handler throws the `ReferenceError` of
src/src/server.js line 173 before every `res.status(...).json(...)` call and
Express 4 does not convert rejected async handlers into responses.  (Even the
written-but-unreachable 400 branch at line 211 sends `{error}` without the
requestId and duration the claim requires.) -/
theorem transcode_request_no_response :
    (transcodeHandler
        { file := some (UploadedFile.mk "/tmp/1700000001-b.mp4" "b.mp4" 2048),
          ip := some "192.0.2.9", userAgent := none, origin := none }).response = none
    ∧ (transcodeHandler
        { file := none, ip := some "192.0.2.9", userAgent := none,
          origin := none }).response = none :=
  ⟨rfl, rfl⟩

/-- A successful record used to witness C7. -/
def c7recA : LogRecord :=
  { id := "a", status := "completed", duration := some 2000, success := some true }

/-- A failed record used to witness C7. -/
def c7recB : LogRecord :=
  { id := "b", status := "failed", duration := some 500, success := some false }

/-- Witness for C7 on a concrete two-record store: one successful record out
of two gives `successRate = round(100 * 1 / 2)`, and the record the duration
filter retains is successful with a non-null duration. -/
theorem getStats_rate_and_avg_witness :
    (getStats [c7recA, c7recB]).successRate = round ((100 : ℚ) * 1 / 2)
    ∧ c7recA.success = some true ∧ c7recA.duration ≠ none := by
  have h := getStats_rate_and_avg [c7recA, c7recB]
  have hm := h.2.2 c7recA (by decide)
  refine ⟨?_, hm.1, hm.2⟩
  rw [h.1]
  have hl2 : (([c7recA, c7recB] : List LogRecord).filter
      (fun l => l.success == some true)).length = 1 := by decide
  rw [hl2]
  norm_num
